import Mathlib

/-!
Verification of the container resource-metrics normalization engine of
danielye11/containerd (CRI stats collection: `container_stats_list` for the
`server` and `sbserver` packages, the stats store record types, and
`ListPodSandboxMetrics`).

Machine integers (Go `uint64`) are modelled as `Nat`; wrap-around is made
explicit with `% u64Mod` exactly where the Go code can overflow
(multiplication in the v2 CPU conversion, guarded subtractions in the
working-set and available-bytes helpers).  Go pointers that may be `nil`
are modelled as `Option`; fallible Go functions returning `(T, error)` are
modelled as `Except String T`.
-/

/-- Modulus of Go `uint64` arithmetic. -/
def u64Mod : Nat := 2 ^ 64

/-- Go `uint64` subtraction `a - b`, wrapping modulo `2^64`.  Faithful for
arguments below `2^64`. -/
def sub64 (a b : Nat) : Nat := (a + u64Mod - b) % u64Mod

/-- Go `time.Time`; only `UnixNano()` is used by the embedded code, so the
model carries the nanosecond timestamp directly. -/
structure Time where
  unixNano : Int
deriving DecidableEq

/-! ### Raw cgroup metric payloads (`v1.Metrics` / `v2.Metrics`) -/

/-- Cgroup v1 `CPUUsage` sub-structure (fields read by the embedded code). -/
structure V1CPUUsage where
  total : Nat := 0
  kernel : Nat := 0
  user : Nat := 0
deriving DecidableEq

/-- Cgroup v1 `Throttle` sub-structure.  The Go code dereferences
`CPU.Throttling` unconditionally, so it is modelled as a plain field. -/
structure V1Throttle where
  throttledPeriods : Nat := 0
  throttledTime : Nat := 0
deriving DecidableEq

/-- Cgroup v1 `CPUStat`: `Usage` is a nullable pointer in Go. -/
structure V1CPUStat where
  usage : Option V1CPUUsage := none
  throttling : V1Throttle := {}
deriving DecidableEq

/-- Cgroup v1 `MemoryEntry` (the `Memory.Usage` sub-structure). -/
structure V1MemoryEntry where
  usage : Nat := 0
  limit : Nat := 0
  failcnt : Nat := 0
  max : Nat := 0
deriving DecidableEq

/-- Cgroup v1 `MemoryStat` (fields read by the embedded code). -/
structure V1MemoryStat where
  usage : Option V1MemoryEntry := none
  totalInactiveFile : Nat := 0
  totalRSS : Nat := 0
  totalPgFault : Nat := 0
  totalPgMajFault : Nat := 0
  cache : Nat := 0
deriving DecidableEq

/-- Cgroup v1 `PidsStat`. -/
structure V1Pids where
  limit : Nat := 0
  current : Nat := 0
deriving DecidableEq

/-- Cgroup v1 `Metrics` top-level structure (claim-relevant fields). -/
structure V1Metrics where
  cpu : Option V1CPUStat := none
  memory : Option V1MemoryStat := none
  pids : Option V1Pids := none
deriving DecidableEq

/-- Cgroup v2 `CPUStat`. -/
structure V2CPUStat where
  usageUsec : Nat := 0
  userUsec : Nat := 0
  systemUsec : Nat := 0
  nrPeriods : Nat := 0
  nrThrottled : Nat := 0
deriving DecidableEq

/-- Cgroup v2 `MemoryStat` (fields read by the embedded code). -/
structure V2MemoryStat where
  usage : Nat := 0
  usageLimit : Nat := 0
  inactiveFile : Nat := 0
  anon : Nat := 0
  file : Nat := 0
  pgfault : Nat := 0
  pgmajfault : Nat := 0
deriving DecidableEq

/-- Cgroup v2 `PidsStat`. -/
structure V2Pids where
  limit : Nat := 0
  current : Nat := 0
deriving DecidableEq

/-- Cgroup v2 `Metrics` top-level structure (claim-relevant fields). -/
structure V2Metrics where
  cpu : Option V2CPUStat := none
  memory : Option V2MemoryStat := none
  pids : Option V2Pids := none
deriving DecidableEq

/-- Result of `typeurl.UnmarshalAny` as consumed by the Go type switch:
either one of the two supported variants or some other decoded type
(the `default` case of the switch). -/
inductive MetricsPayload where
  | v1 (metrics : V1Metrics)
  | v2 (metrics : V2Metrics)
  | other
deriving DecidableEq

/-! ### CRI (`runtime.*`) result types, as populated by the embedded code.
Nullable `*runtime.UInt64Value` wrappers are modelled as `Option Nat`. -/

/-- CRI `runtime.ContainerTasksState`. -/
structure ContainerTasksState where
  sleepingTasks : Option Nat := none
  runningTasks : Option Nat := none
  stoppedTasks : Option Nat := none
  uninterruptibleTasks : Option Nat := none
  iowaitingTasks : Option Nat := none
deriving DecidableEq

/-- CRI `runtime.CpuUsage`. -/
structure CpuUsage where
  timestamp : Int := 0
  usageCoreNanoSeconds : Option Nat := none
  usageNanoCores : Option Nat := none
  cpuCfsThrottledPeriodsTotal : Option Nat := none
  cpuCfsThrottledSecondsTotal : Option Nat := none
  cpuSystemSecondsTotal : Option Nat := none
  cpuUsageSecondsTotal : Option Nat := none
  cpuUserSecondsTotal : Option Nat := none
  tasksState : Option ContainerTasksState := none
deriving DecidableEq

/-- CRI `runtime.MemoryUsage`. -/
structure MemoryUsage where
  timestamp : Int := 0
  workingSetBytes : Option Nat := none
  availableBytes : Option Nat := none
  usageBytes : Option Nat := none
  rssBytes : Option Nat := none
  pageFaults : Option Nat := none
  majorPageFaults : Option Nat := none
  memoryCache : Option Nat := none
  memoryFailcnt : Option Nat := none
  maxUsageBytes : Option Nat := none
deriving DecidableEq

/-- CRI `runtime.ContainerProcessUsage`. -/
structure ContainerProcessUsage where
  timestamp : Int := 0
  threadsMax : Option Nat := none
  threadsCount : Option Nat := none
deriving DecidableEq

/-- CRI `runtime.FilesystemIdentifier`. -/
structure FilesystemIdentifier where
  mountpoint : String := ""
deriving DecidableEq

/-- CRI `runtime.FilesystemUsage` (every field the `server` variant of
`containerMetrics` populates, including its hard-coded placeholder values). -/
structure FilesystemUsage where
  timestamp : Int := 0
  fsId : FilesystemIdentifier := {}
  usedBytes : Option Nat := none
  inodesUsed : Option Nat := none
  device : String := ""
  fsType : String := ""
  limitBytes : Option Nat := none
  usageBytes : Option Nat := none
  baseUsage : Option Nat := none
  availableBytes : Option Nat := none
  hasInodes : Bool := false
  inodeCapacity : Option Nat := none
  inodesAvailable : Option Nat := none
  readsCompleted : Option Nat := none
  readsMerged : Option Nat := none
  sectorsRead : Option Nat := none
  readTime : Option Nat := none
  writesCompleted : Option Nat := none
  writesMerged : Option Nat := none
  sectorsWritten : Option Nat := none
  writeTime : Option Nat := none
  ioInProgress : Option Nat := none
  ioTime : Option Nat := none
  weightedIoTime : Option Nat := none
deriving DecidableEq

/-- CRI `runtime.ContainerMetadata`. -/
structure ContainerMetadata where
  name : String := ""
  attempt : Nat := 0
deriving DecidableEq

/-- CRI `runtime.ContainerAttributes`.  Go string maps are modelled as
association lists. -/
structure ContainerAttributes where
  id : String := ""
  metadata : Option ContainerMetadata := none
  labels : List (String × String) := []
  annotations : List (String × String) := []
deriving DecidableEq

/-- CRI `runtime.LabelPair`. -/
structure LabelPair where
  name : String := ""
  value : String := ""
deriving DecidableEq

/-- CRI `runtime.Gauge`.  The Go field is a float; the embedded code only
ever stores the constant `1.0`, modelled as the numeral `1`. -/
structure Gauge where
  value : Nat := 0
deriving DecidableEq

/-- CRI `runtime.MetricType`. -/
inductive MetricType where
  | COUNTER
  | GAUGE
deriving DecidableEq

/-- CRI `runtime.Metric` (the prometheus-style metric record). -/
structure RuntimeMetric where
  label : Option LabelPair := none
  gauge : Option Gauge := none
  type : MetricType := MetricType.GAUGE
  timestampMs : Int := 0
deriving DecidableEq

/-- CRI `runtime.ContainerStats` as populated by the `server` variant of
`containerMetrics` (pointer-valued sub-records modelled as `Option`). -/
structure RuntimeContainerStats where
  attributes : Option ContainerAttributes := none
  cpu : Option CpuUsage := none
  memory : Option MemoryUsage := none
  writableLayer : Option FilesystemUsage := none
  process : Option ContainerProcessUsage := none
  prometheusMetric : Option RuntimeMetric := none
deriving DecidableEq

/-! ### Stats-store record types (`pkg/cri/store/stats`) -/

/-- Store `stats.ContainerCpuStats`. -/
structure ContainerCpuStats where
  usageCoreNanoSeconds : Nat := 0
  usageNanoCores : Nat := 0
  periodsTotal : Nat := 0
  cpuCfsThrottledPeriodsTotal : Nat := 0
  cpuCfsThrottledSecondsTotal : Nat := 0
  cpuSystemSecondsTotal : Nat := 0
  cpuUsageSecondsTotal : Nat := 0
  cpuUserSecondsTotal : Nat := 0
deriving DecidableEq

/-- Store `stats.ContainerMemoryStats`. -/
structure ContainerMemoryStats where
  workingSetBytes : Nat := 0
  availableBytes : Nat := 0
  usageBytes : Nat := 0
  rssBytes : Nat := 0
  pageFaults : Nat := 0
  majorPageFaults : Nat := 0
  memoryCache : Nat := 0
  memoryFailCnt : Nat := 0
  maxUsageBytes : Nat := 0
deriving DecidableEq

/-- Store `stats.ContainerProcessStats`. -/
structure ContainerProcessStats where
  fileDescriptorCount : Nat := 0
  socketCount : Nat := 0
  maxThreads : Nat := 0
  threadsCount : Nat := 0
deriving DecidableEq

/-- Store `stats.ContainerFileSystemStats` (all counter fields of the Go
struct, zero-valued by default as in Go). -/
structure ContainerFileSystemStats where
  fsID : FilesystemIdentifier := {}
  usedBytes : Nat := 0
  inodesUsed : Nat := 0
  device : String := ""
  fsType : String := ""
  limitBytes : Nat := 0
  usageBytes : Nat := 0
  baseUsage : Nat := 0
  availableBytes : Nat := 0
  hasInodes : Bool := false
  inodeCapacity : Nat := 0
  inodesAvailable : Nat := 0
  readsCompleted : Nat := 0
  readsMerged : Nat := 0
  sectorsRead : Nat := 0
  readTime : Nat := 0
  writesCompleted : Nat := 0
  writesMerged : Nat := 0
  sectorsWritten : Nat := 0
  writeTime : Nat := 0
  ioInProgress : Nat := 0
  ioTime : Nat := 0
  weightedIoTime : Nat := 0
deriving DecidableEq

/-- Store `stats.ContainerNetworkStats`. -/
structure ContainerNetworkStats where
  name : String := ""
  rxBytes : Nat := 0
  rxErrors : Nat := 0
  txBytes : Nat := 0
  txErrors : Nat := 0
  rxDropped : Nat := 0
  rxPackets : Nat := 0
  txDropped : Nat := 0
  txPackets : Nat := 0
deriving DecidableEq

/-- Store `stats.ContainerAttributes`. -/
structure StoreContainerAttributes where
  id : String := ""
  metadata : Option ContainerMetadata := none
  labels : List (String × String) := []
  annotations : List (String × String) := []
deriving DecidableEq

/-- Store `stats.ContainerStats`: the cached per-container normalized
sample. -/
structure ContainerStats where
  timestamp : Int := 0
  usageCoreNanoSeconds : Nat := 0
  attributes : StoreContainerAttributes := {}
  cpuStats : ContainerCpuStats := {}
  memoryStats : ContainerMemoryStats := {}
  processStats : ContainerProcessStats := {}
  networkStats : ContainerNetworkStats := {}
  fileSystemStats : ContainerFileSystemStats := {}
deriving DecidableEq

/-- Store `stats.ContainerCPUMetrics` (returned by the sbserver
`generatedCPUContainerMetrics`). -/
structure ContainerCPUMetrics where
  cpuCfsThrottledPeriodsTotal : Nat := 0
  cpuCfsThrottledSecondsTotal : Nat := 0
  cpuSystemSecondsTotal : Nat := 0
  cpuUsageSecondsTotal : Nat := 0
  cpuUserSecondsTotal : Nat := 0
deriving DecidableEq

/-! ### Collaborator state: snapshot store, container/sandbox stores -/

/-- A snapshot-store record: writable-layer size and inode usage. -/
structure Snapshot where
  size : Nat := 0
  inodes : Nat := 0
  timestamp : Int := 0
deriving DecidableEq

/-- Container (or sandbox) metadata as consumed by the stats assemblers:
`containerstore.Metadata` with its CRI config. -/
structure ContainerConfig where
  metadata : Option ContainerMetadata := none
  labels : List (String × String) := []
  annotations : List (String × String) := []
deriving DecidableEq

/-- `containerstore.Metadata` (fields read by the embedded code). -/
structure Metadata where
  ID : String := ""
  config : ContainerConfig := {}
deriving DecidableEq

/-- The container store and sandbox store are modelled as association
lists from container ID to the record's nullable `Stats` pointer. -/
def StatsStore := List (String × Option ContainerStats)

/-- `UpdateContainerStats`: set the `Stats` field of the record with the
given ID. -/
def storeUpdate (store : StatsStore) (containerID : String) (cs : ContainerStats) : StatsStore :=
  store.map (fun p => if p.1 = containerID then (p.1, some cs) else p)

/-- `store.Get`: returns the record's `Stats` pointer, or `none` when no
record with that ID exists (the store's not-found error). -/
def storeGet (store : StatsStore) (containerID : String) : Option (Option ContainerStats) :=
  (store.find? (fun p => p.1 = containerID)).map (fun p => p.2)

/-- The `criService` receiver fields read by the embedded code.  The
snapshot store is the external snapshot-size provider, a fallible lookup. -/
structure criService where
  snapshotStore : String → Except String Snapshot
  imageFSPath : String := ""
  sandboxStore : StatsStore := []
  containerStore : StatsStore := []

/-- Go `types.Metric` (the raw sample envelope): the sample timestamp and
the payload; the outcome of `typeurl.UnmarshalAny` on `Data` is carried as
an `Except` since decoding is a collaborator concern. -/
structure TypesMetric where
  timestamp : Time
  data : Except String MetricsPayload

/-! ### Embedded operations -/

/-- Embeds `getWorkingSet` (server `container_stats_list`):
workingset = usage - total_inactive_file, guarded; returns 0 when the v1
usage sub-structure is nil. -/
def getWorkingSet (memory : V1MemoryStat) : Nat :=
  match memory.usage with
  | none => 0
  | some u =>
    if memory.totalInactiveFile < u.usage then
      sub64 u.usage memory.totalInactiveFile
    else
      0

/-- Embeds `getWorkingSetV2`: workingset = usage - inactive_file, guarded. -/
def getWorkingSetV2 (memory : V2MemoryStat) : Nat :=
  if memory.inactiveFile < memory.usage then
    sub64 memory.usage memory.inactiveFile
  else
    0

/-- Embeds `isMemoryUnlimited`: size after which memory is considered
"unlimited" (strictly greater than `1 << 62`). -/
def isMemoryUnlimited (v : Nat) : Bool :=
  v > 2 ^ 62

/-- Embeds `getAvailableBytes`: memory limit minus working set, zero when
unlimited.  The Go code dereferences `memory.Usage` unconditionally (a nil
pointer would panic); callers guarantee it is non-nil, so the `none`
branch is unreachable and yields 0. -/
def getAvailableBytes (memory : V1MemoryStat) (workingSetBytes : Nat) : Nat :=
  match memory.usage with
  | some u =>
    if ¬ isMemoryUnlimited u.limit then
      sub64 u.limit workingSetBytes
    else
      0
  | none => 0

/-- Embeds `getAvailableBytesV2`: memory limit (`memory.max`) minus
working set, zero when unlimited. -/
def getAvailableBytesV2 (memory : V2MemoryStat) (workingSetBytes : Nat) : Nat :=
  if ¬ isMemoryUnlimited memory.usageLimit then
    sub64 memory.usageLimit workingSetBytes
  else
    0

/-- Embeds the server `cpuContainerStats` type switch.  Note that the
source hard-codes `UsageNanoCores` to 1 and fills `TasksState` with
placeholder 1 values, and copies the v1 throttled-time and v2 nr-throttled
counters without unit conversion. -/
def cpuContainerStats (ID : String) (isSandbox : Bool) (stats : MetricsPayload)
    (timestamp : Time) : Except String (Option CpuUsage) :=
  match stats with
  | .v1 metrics =>
    match metrics.cpu with
    | some cpu =>
      match cpu.usage with
      | some usage =>
        .ok (some
          { timestamp := timestamp.unixNano
            usageCoreNanoSeconds := some usage.total
            usageNanoCores := some 1
            cpuCfsThrottledPeriodsTotal := some cpu.throttling.throttledPeriods
            cpuCfsThrottledSecondsTotal := some cpu.throttling.throttledTime
            cpuSystemSecondsTotal := some usage.kernel
            cpuUsageSecondsTotal := some usage.total
            cpuUserSecondsTotal := some usage.user
            tasksState := some
              { sleepingTasks := some 1
                runningTasks := some 1
                stoppedTasks := some 1
                uninterruptibleTasks := some 1
                iowaitingTasks := some 1 } })
      | none => .ok none
    | none => .ok none
  | .v2 metrics =>
    match metrics.cpu with
    | some cpu =>
      .ok (some
        { timestamp := timestamp.unixNano
          usageCoreNanoSeconds := some (cpu.usageUsec * 1000 % u64Mod)
          usageNanoCores := some 1
          cpuCfsThrottledPeriodsTotal := some cpu.nrPeriods
          cpuCfsThrottledSecondsTotal := some cpu.nrThrottled
          cpuSystemSecondsTotal := some cpu.systemUsec
          cpuUsageSecondsTotal := some cpu.usageUsec
          cpuUserSecondsTotal := some cpu.userUsec
          tasksState := some
            { sleepingTasks := some 1
              runningTasks := some 1
              stoppedTasks := some 1
              uninterruptibleTasks := some 1
              iowaitingTasks := some 1 } })
    | none => .ok none
  | .other => .error "unexpected metrics type"

/-- Embeds the server `memoryContainerStats` type switch. -/
def memoryContainerStats (ID : String) (stats : MetricsPayload)
    (timestamp : Time) : Except String (Option MemoryUsage) :=
  match stats with
  | .v1 metrics =>
    match metrics.memory with
    | some memory =>
      match memory.usage with
      | some usage =>
        let workingSetBytes := getWorkingSet memory
        .ok (some
          { timestamp := timestamp.unixNano
            workingSetBytes := some workingSetBytes
            availableBytes := some (getAvailableBytes memory workingSetBytes)
            usageBytes := some usage.usage
            rssBytes := some memory.totalRSS
            pageFaults := some memory.totalPgFault
            majorPageFaults := some memory.totalPgMajFault
            memoryCache := some memory.cache
            memoryFailcnt := some usage.failcnt
            maxUsageBytes := some usage.max })
      | none => .ok none
    | none => .ok none
  | .v2 metrics =>
    match metrics.memory with
    | some memory =>
      let workingSetBytes := getWorkingSetV2 memory
      .ok (some
        { timestamp := timestamp.unixNano
          workingSetBytes := some workingSetBytes
          availableBytes := some (getAvailableBytesV2 memory workingSetBytes)
          usageBytes := some memory.usage
          rssBytes := some memory.anon
          pageFaults := some memory.pgfault
          majorPageFaults := some memory.pgmajfault
          memoryCache := some memory.file })
    | none => .ok none
  | .other => .error "unexpected metrics type"

/-- Embeds the server `processContainerStats` type switch. -/
def processContainerStats (ID : String) (stats : MetricsPayload)
    (timestamp : Time) : Except String (Option ContainerProcessUsage) :=
  match stats with
  | .v1 metrics =>
    match metrics.pids with
    | some pids =>
      .ok (some
        { timestamp := timestamp.unixNano
          threadsMax := some pids.limit
          threadsCount := some pids.current })
    | none => .ok none
  | .v2 metrics =>
    match metrics.pids with
    | some pids =>
      .ok (some
        { timestamp := timestamp.unixNano
          threadsMax := some pids.limit
          threadsCount := some pids.current })
    | none => .ok none
  | .other => .error "unexpected metrics type"

/-- Embeds the sbserver `generatedCPUContainerMetrics` type switch: here
the v1 throttled-time and v2 nr-throttled counters are divided by
`uint64(time.Second)` (1e9). -/
def generatedCPUContainerMetrics (ID : String) (isSandbox : Bool)
    (stats : MetricsPayload) (timestamp : Time) :
    Except String (Option ContainerCPUMetrics) :=
  match stats with
  | .v1 metrics =>
    match metrics.cpu with
    | some cpu =>
      match cpu.usage with
      | some usage =>
        .ok (some
          { cpuCfsThrottledPeriodsTotal := cpu.throttling.throttledPeriods
            cpuCfsThrottledSecondsTotal := cpu.throttling.throttledTime / 1000000000
            cpuSystemSecondsTotal := usage.kernel
            cpuUsageSecondsTotal := usage.total
            cpuUserSecondsTotal := usage.user })
      | none => .ok none
    | none => .ok none
  | .v2 metrics =>
    match metrics.cpu with
    | some cpu =>
      .ok (some
        { cpuCfsThrottledPeriodsTotal := cpu.nrPeriods
          cpuCfsThrottledSecondsTotal := cpu.nrThrottled / 1000000000
          cpuSystemSecondsTotal := cpu.systemUsec
          cpuUsageSecondsTotal := cpu.usageUsec
          cpuUserSecondsTotal := cpu.userUsec })
    | none => .ok none
  | .other => .error "unexpected metrics type"

/-- Embeds the sbserver `setContainerStats`: read the sandbox or container
record, and write the new sample into the store only when the record's
cached `Stats` pointer is nil; an existing entry is left untouched. -/
def setContainerStats (c : criService) (containerID : String)
    (isSandbox : Bool) (cs : ContainerStats) : Except String criService :=
  if isSandbox then
    match storeGet c.sandboxStore containerID with
    | none => .error ("failed to get sandbox container: " ++ containerID)
    | some oldStats =>
      match oldStats with
      | none => .ok { c with sandboxStore := storeUpdate c.sandboxStore containerID cs }
      | some _ => .ok c
  else
    match storeGet c.containerStore containerID with
    | none => .error ("failed to get container ID: " ++ containerID)
    | some oldStats =>
      match oldStats with
      | none => .ok { c with containerStore := storeUpdate c.containerStore containerID cs }
      | some _ => .ok c

/-- Embeds the filesystem-resolution block of the sbserver
`generatedUnstructuredContainerMetrics` (snapshot lookup; a lookup error
leaves used bytes and inodes at their zero values). -/
def generatedUnstructuredFileSystemStats (c : criService) (meta : Metadata) :
    ContainerFileSystemStats :=
  let snRes := c.snapshotStore meta.ID
  let usedBytes : Nat :=
    match snRes with
    | .ok sn => sn.size
    | .error _ => 0
  let inodesUsed : Nat :=
    match snRes with
    | .ok sn => sn.inodes
    | .error _ => 0
  { fsID := { mountpoint := c.imageFSPath }
    usedBytes := usedBytes
    inodesUsed := inodesUsed }

/-- Embeds the server `prometheusMetrics`: a constant placeholder metric,
never an error.  (The Go gauge value `1.0` is a float, modelled as the
numeral 1.) -/
def prometheusMetrics : Except String RuntimeMetric :=
  .ok
    { label := some
        { name := "danielye: prometheus dummy metric name"
          value := "danielye: prometheus dummy metric value" }
      gauge := some { value := 1 }
      type := MetricType.COUNTER
      timestampMs := 17 }

/-- Embeds the `WritableLayer` record construction of the server
`containerMetrics` (snapshot lookup with zero fallback, plus the
hard-coded placeholder fields).  On a lookup error `sn` is the Go zero
value, so its timestamp is 0. -/
def resolveWritableLayer (c : criService) (meta : Metadata) : FilesystemUsage :=
  let snRes := c.snapshotStore meta.ID
  let sn : Snapshot :=
    match snRes with
    | .ok s => s
    | .error _ => {}
  let usedBytes : Nat :=
    match snRes with
    | .ok s => s.size
    | .error _ => 0
  let inodesUsed : Nat :=
    match snRes with
    | .ok s => s.inodes
    | .error _ => 0
  { timestamp := sn.timestamp
    fsId := { mountpoint := c.imageFSPath }
    usedBytes := some usedBytes
    inodesUsed := some inodesUsed
    device := "a"
    fsType := "a"
    limitBytes := some 1
    usageBytes := some 1
    baseUsage := some 1
    availableBytes := some 1
    hasInodes := false
    inodeCapacity := some 1
    inodesAvailable := some 1
    readsCompleted := some 1
    readsMerged := some 1
    sectorsRead := some 1
    readTime := some 1
    writesCompleted := some 1
    writesMerged := some 1
    sectorsWritten := some 1
    writeTime := some 1
    ioInProgress := some 1
    ioTime := some 1
    weightedIoTime := some 1 }

/-- Embeds the server `containerMetrics`: assemble writable-layer stats,
attributes, and — when a raw sample is present — the CPU, memory, process
and prometheus records; any extraction error aborts with a wrapped error. -/
def containerMetrics (c : criService) (meta : Metadata)
    (stats : Option TypesMetric) : Except String RuntimeContainerStats :=
  let writableLayer := resolveWritableLayer c meta
  let attributes : ContainerAttributes :=
    { id := meta.ID
      metadata := meta.config.metadata
      labels := meta.config.labels
      annotations := meta.config.annotations }
  match stats with
  | none => .ok { writableLayer := some writableLayer, attributes := some attributes }
  | some st =>
    match st.data with
    | .error _ => .error "failed to extract container metrics"
    | .ok s =>
      match cpuContainerStats meta.ID false s st.timestamp with
      | .error e => .error ("failed to obtain cpu stats: " ++ e)
      | .ok cpuStats =>
        match memoryContainerStats meta.ID s st.timestamp with
        | .error e => .error ("failed to obtain memory stats: " ++ e)
        | .ok memoryStats =>
          match processContainerStats meta.ID s st.timestamp with
          | .error e => .error ("failed to obtain process stats: " ++ e)
          | .ok processStats =>
            match prometheusMetrics with
            | .error e => .error ("failed to obtain prometheus stats: " ++ e)
            | .ok metricStats =>
              .ok { writableLayer := some writableLayer
                    attributes := some attributes
                    cpu := cpuStats
                    memory := memoryStats
                    process := processStats
                    prometheusMetric := some metricStats }

/-- A sandbox record as consumed by `ListPodSandboxMetrics` (only the ID
is read by the embedded loop). -/
structure Sandbox where
  id : String
deriving DecidableEq

/-- Embeds `ListPodSandboxMetrics`: iterate over the listed sandboxes in
order, fail fast on the first per-sandbox error (from either the
platform metrics fetch or the decode step), wrapping it with the
offending sandbox's ID; otherwise append one entry per sandbox.  The two
per-sandbox collaborators are parameters, as in the source they are
platform-specific. -/
def listPodSandboxMetrics {α β : Type} (metricsForSandbox : Sandbox → Except String α)
    (podSandboxMetrics : Sandbox → α → Except String β) :
    List Sandbox → Except String (List β)
  | [] => .ok []
  | sandbox :: rest =>
    match metricsForSandbox sandbox with
    | .error e =>
      .error ("failed to obtain metrics for sandbox \"" ++ sandbox.id ++ "\": " ++ e)
    | .ok metrics =>
      match podSandboxMetrics sandbox metrics with
      | .error e =>
        .error ("failed to decode sandbox container metrics for sandbox \"" ++ sandbox.id ++ "\": " ++ e)
      | .ok sandboxMetrics =>
        match listPodSandboxMetrics metricsForSandbox podSandboxMetrics rest with
        | .error e => .error e
        | .ok l => .ok (sandboxMetrics :: l)

/-! ### Claim theorems -/

/-- C10: the working-set helpers are total and never underflow unsigned
arithmetic: `getWorkingSet` returns 0 when the v1 usage sub-structure is
nil or when total-inactive-file is at least usage, `getWorkingSetV2`
returns 0 when inactive-file is at least usage, and the guarded
subtraction equals the exact mathematical difference (no wrap-around)
whenever it is performed. -/
theorem workingSet_no_underflow :
    ∀ (m1 : V1MemoryStat) (m2 : V2MemoryStat),
      (m1.usage = none → getWorkingSet m1 = 0) ∧
      (∀ u, m1.usage = some u → u.usage ≤ m1.totalInactiveFile →
        getWorkingSet m1 = 0) ∧
      (∀ u, m1.usage = some u → m1.totalInactiveFile < u.usage → u.usage < u64Mod →
        getWorkingSet m1 = u.usage - m1.totalInactiveFile) ∧
      (m2.usage ≤ m2.inactiveFile → getWorkingSetV2 m2 = 0) ∧
      (m2.inactiveFile < m2.usage → m2.usage < u64Mod →
        getWorkingSetV2 m2 = m2.usage - m2.inactiveFile) := by
  intro m1 m2
  refine ⟨?_, ?_, ?_, ?_, ?_⟩
  · intro h
    simp [getWorkingSet, h]
  · intro u h hle
    simp only [getWorkingSet, h]
    rw [if_neg (by omega)]
  · intro u h hlt hb
    simp only [getWorkingSet, h]
    rw [if_pos hlt]
    simp only [sub64, u64Mod] at hb ⊢
    omega
  · intro hle
    simp only [getWorkingSetV2]
    rw [if_neg (by omega)]
  · intro hlt hb
    simp only [getWorkingSetV2]
    rw [if_pos hlt]
    simp only [sub64, u64Mod] at hb ⊢
    omega

/-- C10 witness: concrete evaluations of the no-underflow theorem. -/
theorem workingSet_no_underflow_witness :
    getWorkingSet { usage := some { usage := 5 }, totalInactiveFile := 7 } = 0 ∧
    getWorkingSet { usage := some { usage := 9 }, totalInactiveFile := 4 } = 5 ∧
    getWorkingSetV2 { usage := 9, inactiveFile := 4 } = 5 := by
  refine ⟨?_, ?_, ?_⟩
  · exact (workingSet_no_underflow { usage := some { usage := 5 }, totalInactiveFile := 7 }
      {}).2.1 { usage := 5 } rfl (by decide)
  · exact ((workingSet_no_underflow { usage := some { usage := 9 }, totalInactiveFile := 4 }
      {}).2.2.1 { usage := 9 } rfl (by decide) (by norm_num [u64Mod]))
  · exact ((workingSet_no_underflow { usage := some { usage := 5 } }
      { usage := 9, inactiveFile := 4 }).2.2.2.2 (by decide) (by norm_num [u64Mod]))

/-- C4: for every valid memory sample in both encodings, the working set
equals max(0, usage − inactive-file) and is at most the usage counter,
and the memory extractor reports exactly these working-set and usage
values. -/
theorem workingSet_max_formula :
    ∀ (ID : String) (t : Time) (m1 : V1Metrics) (mem1 : V1MemoryStat)
      (u : V1MemoryEntry) (m2 : V2Metrics) (mem2 : V2MemoryStat),
      m1.memory = some mem1 → mem1.usage = some u → u.usage < u64Mod →
      m2.memory = some mem2 → mem2.usage < u64Mod →
      (getWorkingSet mem1 = ((u.usage : Int) - (mem1.totalInactiveFile : Int)).toNat ∧
       getWorkingSet mem1 ≤ u.usage ∧
       (memoryContainerStats ID (.v1 m1) t).map (Option.map (fun r => r.workingSetBytes)) =
         .ok (some (some (getWorkingSet mem1))) ∧
       (memoryContainerStats ID (.v1 m1) t).map (Option.map (fun r => r.usageBytes)) =
         .ok (some (some u.usage)) ∧
       getWorkingSetV2 mem2 = ((mem2.usage : Int) - (mem2.inactiveFile : Int)).toNat ∧
       getWorkingSetV2 mem2 ≤ mem2.usage ∧
       (memoryContainerStats ID (.v2 m2) t).map (Option.map (fun r => r.workingSetBytes)) =
         .ok (some (some (getWorkingSetV2 mem2))) ∧
       (memoryContainerStats ID (.v2 m2) t).map (Option.map (fun r => r.usageBytes)) =
         .ok (some (some mem2.usage))) := by
  intro ID t m1 mem1 u m2 mem2 hm hu hub hm2 hub2
  have hub' : u.usage < 2 ^ 64 := by simpa [u64Mod] using hub
  have hub2' : mem2.usage < 2 ^ 64 := by simpa [u64Mod] using hub2
  have hws1 : getWorkingSet mem1 = ((u.usage : Int) - (mem1.totalInactiveFile : Int)).toNat := by
    simp only [getWorkingSet, hu]
    split
    · rename_i hlt
      have h1 : sub64 u.usage mem1.totalInactiveFile = u.usage - mem1.totalInactiveFile := by
        simp only [sub64, u64Mod]
        omega
      rw [h1]
      omega
    · rename_i hnlt
      omega
  have hws2 : getWorkingSetV2 mem2 = ((mem2.usage : Int) - (mem2.inactiveFile : Int)).toNat := by
    simp only [getWorkingSetV2]
    split
    · rename_i hlt
      have h1 : sub64 mem2.usage mem2.inactiveFile = mem2.usage - mem2.inactiveFile := by
        simp only [sub64, u64Mod]
        omega
      rw [h1]
      omega
    · rename_i hnlt
      omega
  refine ⟨hws1, by omega, ?_, ?_, hws2, by omega, ?_, ?_⟩
  · simp [memoryContainerStats, hm, hu, Except.map]
  · simp [memoryContainerStats, hm, hu, Except.map]
  · simp [memoryContainerStats, hm2, Except.map]
  · simp [memoryContainerStats, hm2, Except.map]

/-- C4 witness: the working-set formula evaluated at a concrete v1 sample
with usage 100 and inactive-file 30. -/
theorem workingSet_max_formula_witness :
    getWorkingSet { usage := some { usage := 100 }, totalInactiveFile := 30 } =
      (((100 : Nat) : Int) - ((30 : Nat) : Int)).toNat ∧
    getWorkingSet { usage := some { usage := 100 }, totalInactiveFile := 30 } ≤ 100 := by
  have h := workingSet_max_formula "c1" { unixNano := 0 }
    { memory := some { usage := some { usage := 100 }, totalInactiveFile := 30 } }
    { usage := some { usage := 100 }, totalInactiveFile := 30 }
    { usage := 100 } { memory := some {} } {} rfl rfl (by norm_num [u64Mod]) rfl
    (by norm_num [u64Mod])
  exact ⟨h.1, h.2.1⟩

/-- Concrete v1 memory sample whose declared limit is exactly `2^62`,
refuting the claim that such a limit counts as unlimited. -/
def c3BoundaryMem : V1MemoryStat :=
  { usage := some { usage := 500, limit := 2 ^ 62 }
    totalInactiveFile := 500 }

/-- C3 counterexample: with a declared limit of exactly `2^62` (and
working set 0), `getAvailableBytes` returns `2^62 - 0 = 2^62`, not 0, and
the v1 memory extractor reports the same; so a limit of exactly `2^62`
does not count as unlimited. -/
theorem availableBytes_boundary_cex :
    getAvailableBytes c3BoundaryMem 0 = 2 ^ 62 ∧
    getAvailableBytesV2 { usageLimit := 2 ^ 62 } 0 = 2 ^ 62 ∧
    (memoryContainerStats "c1" (.v1 { memory := some c3BoundaryMem }) { unixNano := 0 }).map
        (Option.map (fun r => r.availableBytes)) = .ok (some (some (2 ^ 62))) ∧
    (2 ^ 62 : Nat) ≠ 0 := by
  refine ⟨by decide, by decide, rfl, by decide⟩

/-- C3 (amended): for both encodings, availableBytes is 0 exactly when the
declared limit is strictly greater than `2^62`; for a limit at most `2^62`
it is the limit minus the working set (as uint64 subtraction, exact when
the working set does not exceed the limit).  A limit of exactly `2^62`
counts as limited. -/
theorem availableBytes_threshold :
    ∀ (mem1 : V1MemoryStat) (u : V1MemoryEntry) (mem2 : V2MemoryStat) (ws : Nat),
      mem1.usage = some u →
      ((2 ^ 62 < u.limit → getAvailableBytes mem1 ws = 0) ∧
       (u.limit ≤ 2 ^ 62 → getAvailableBytes mem1 ws = sub64 u.limit ws) ∧
       (u.limit ≤ 2 ^ 62 → ws ≤ u.limit → getAvailableBytes mem1 ws = u.limit - ws) ∧
       (2 ^ 62 < mem2.usageLimit → getAvailableBytesV2 mem2 ws = 0) ∧
       (mem2.usageLimit ≤ 2 ^ 62 → getAvailableBytesV2 mem2 ws = sub64 mem2.usageLimit ws) ∧
       (mem2.usageLimit ≤ 2 ^ 62 → ws ≤ mem2.usageLimit →
         getAvailableBytesV2 mem2 ws = mem2.usageLimit - ws)) := by
  intro mem1 u mem2 ws hu
  have hsub : ∀ a b : Nat, b ≤ a → a ≤ 2 ^ 62 → sub64 a b = a - b := by
    intro a b hba ha
    simp only [sub64, u64Mod]
    omega
  refine ⟨?_, ?_, ?_, ?_, ?_, ?_⟩
  · intro h
    simp only [getAvailableBytes, hu, isMemoryUnlimited]
    rw [if_neg (by simpa using h)]
  · intro h
    simp only [getAvailableBytes, hu, isMemoryUnlimited]
    rw [if_pos (by simpa using (by omega : ¬ 2 ^ 62 < u.limit))]
  · intro h hws
    simp only [getAvailableBytes, hu, isMemoryUnlimited]
    rw [if_pos (by simpa using (by omega : ¬ 2 ^ 62 < u.limit))]
    exact hsub u.limit ws hws h
  · intro h
    simp only [getAvailableBytesV2, isMemoryUnlimited]
    rw [if_neg (by simpa using h)]
  · intro h
    simp only [getAvailableBytesV2, isMemoryUnlimited]
    rw [if_pos (by simpa using (by omega : ¬ 2 ^ 62 < mem2.usageLimit))]
  · intro h hws
    simp only [getAvailableBytesV2, isMemoryUnlimited]
    rw [if_pos (by simpa using (by omega : ¬ 2 ^ 62 < mem2.usageLimit))]
    exact hsub mem2.usageLimit ws hws h

/-- C3 witness: the threshold theorem evaluated at concrete limits on both
sides of the boundary. -/
theorem availableBytes_threshold_witness :
    getAvailableBytes { usage := some { limit := 2 ^ 62 + 1 } } 0 = 0 ∧
    getAvailableBytes { usage := some { limit := 1000 } } 400 = 600 ∧
    getAvailableBytesV2 { usageLimit := 1000 } 400 = 600 := by
  refine ⟨?_, ?_, ?_⟩
  · exact (availableBytes_threshold { usage := some { limit := 2 ^ 62 + 1 } }
      { limit := 2 ^ 62 + 1 } {} 0 rfl).1 (by norm_num)
  · exact (availableBytes_threshold { usage := some { limit := 1000 } }
      { limit := 1000 } {} 400 rfl).2.2.1 (by norm_num) (by norm_num)
  · exact (availableBytes_threshold { usage := some { limit := 1000 } }
      { limit := 1000 } { usageLimit := 1000 } 400 rfl).2.2.2.2.2 (by norm_num) (by norm_num)

/-- C6: the reported cumulative UsageCoreNanoSeconds is the raw total
usage counter under the v1-shaped encoding, and the usage-in-microseconds
counter multiplied by 1000 (as uint64 multiplication, exact absent
overflow) under the v2-shaped encoding. -/
theorem usageCoreNanoSeconds_encoding :
    ∀ (ID : String) (isSandbox : Bool) (t : Time) (m1 : V1Metrics)
      (c1 : V1CPUStat) (u : V1CPUUsage) (m2 : V2Metrics) (c2 : V2CPUStat),
      m1.cpu = some c1 → c1.usage = some u → m2.cpu = some c2 →
      ((cpuContainerStats ID isSandbox (.v1 m1) t).map
          (Option.map (fun r => r.usageCoreNanoSeconds)) = .ok (some (some u.total)) ∧
       (cpuContainerStats ID isSandbox (.v2 m2) t).map
          (Option.map (fun r => r.usageCoreNanoSeconds)) =
         .ok (some (some (c2.usageUsec * 1000 % u64Mod))) ∧
       (c2.usageUsec * 1000 < u64Mod →
         c2.usageUsec * 1000 % u64Mod = c2.usageUsec * 1000)) := by
  intro ID isSandbox t m1 c1 u m2 c2 h1 hu h2
  refine ⟨?_, ?_, ?_⟩
  · simp [cpuContainerStats, h1, hu, Except.map]
  · simp [cpuContainerStats, h2, Except.map]
  · intro h
    exact Nat.mod_eq_of_lt h

/-- C6 witness: concrete evaluations — v1 total 123 is reported verbatim,
v2 usage 7 µs is reported as 7000 ns. -/
theorem usageCoreNanoSeconds_encoding_witness :
    (cpuContainerStats "c1" false (.v1 { cpu := some { usage := some { total := 123 } } })
        { unixNano := 0 }).map (Option.map (fun r => r.usageCoreNanoSeconds)) =
      .ok (some (some 123)) ∧
    (cpuContainerStats "c1" false (.v2 { cpu := some { usageUsec := 7 } })
        { unixNano := 0 }).map (Option.map (fun r => r.usageCoreNanoSeconds)) =
      .ok (some (some (7 * 1000 % u64Mod))) := by
  have h := usageCoreNanoSeconds_encoding "c1" false { unixNano := 0 }
    { cpu := some { usage := some { total := 123 } } }
    { usage := some { total := 123 } } { total := 123 }
    { cpu := some { usageUsec := 7 } } { usageUsec := 7 } rfl rfl rfl
  exact ⟨h.1, h.2.1⟩

/-- Concrete second-sample payload from the spec scenario: cumulative CPU
usage 3,000,000,000 ns (after a first sample of 1,000,000,000 ns). -/
def c1SecondSample : V1Metrics :=
  { cpu := some { usage := some { total := 3000000000 } } }

/-- C1 counterexample: on the spec's second-sample scenario (cumulative
usage 3e9 ns at t = 2e9 ns) the CPU extractor reports usageNanoCores = 1,
not the claimed rate 1,000,000,000; nor is it ever Absent when a CPU
record is produced. -/
theorem usageNanoCores_rate_cex :
    (cpuContainerStats "c1" false (.v1 c1SecondSample) { unixNano := 2000000000 }).map
        (Option.map (fun r => r.usageNanoCores)) = .ok (some (some 1)) ∧
    ((some 1 : Option Nat) ≠ some 1000000000) := by
  exact ⟨rfl, by decide⟩

/-- C1 (amended): `cpuContainerStats` reports the constant 1 as
usageNanoCores for every payload for which it produces a CPU record, in
both encodings; no rate is derived and the field is never absent. -/
theorem usageNanoCores_constant_one :
    ∀ (ID : String) (isSandbox : Bool) (p : MetricsPayload) (t : Time) (r : CpuUsage),
      cpuContainerStats ID isSandbox p t = .ok (some r) → r.usageNanoCores = some 1 := by
  intro ID isSandbox p t r h
  match p with
  | .v1 m =>
    match hc : m.cpu with
    | some cpu =>
      match hu : cpu.usage with
      | some usage =>
        simp only [cpuContainerStats, hc, hu, Except.ok.injEq, Option.some.injEq] at h
        rw [← h]
      | none =>
        simp [cpuContainerStats, hc, hu] at h
    | none =>
      simp [cpuContainerStats, hc] at h
  | .v2 m =>
    match hc : m.cpu with
    | some cpu =>
      simp only [cpuContainerStats, hc, Except.ok.injEq, Option.some.injEq] at h
      rw [← h]
    | none =>
      simp [cpuContainerStats, hc] at h
  | .other =>
    simp [cpuContainerStats] at h

/-- C1 witness: the constant-1 theorem applied at the concrete
second-sample payload. -/
theorem usageNanoCores_constant_one_witness :
    ({ timestamp := 2000000000
       usageCoreNanoSeconds := some 3000000000
       usageNanoCores := some 1
       cpuCfsThrottledPeriodsTotal := some 0
       cpuCfsThrottledSecondsTotal := some 0
       cpuSystemSecondsTotal := some 0
       cpuUsageSecondsTotal := some 3000000000
       cpuUserSecondsTotal := some 0
       tasksState := some
         { sleepingTasks := some 1
           runningTasks := some 1
           stoppedTasks := some 1
           uninterruptibleTasks := some 1
           iowaitingTasks := some 1 } } : CpuUsage).usageNanoCores = some 1 := by
  exact usageNanoCores_constant_one "c1" false (.v1 c1SecondSample)
    { unixNano := 2000000000 } _ rfl

/-- Concrete v1 payload whose throttled-time counter is 3e9 ns. -/
def c5ThrottledSample : V1Metrics :=
  { cpu := some { usage := some {}, throttling := { throttledTime := 3000000000 } } }

/-- C5 counterexample: for a v1 sample with throttled-time 3e9 ns,
`cpuContainerStats` reports CpuCfsThrottledSecondsTotal = 3e9 — the raw
nanosecond counter — not the claimed 3e9 / 1e9 = 3 seconds. -/
theorem throttledSeconds_raw_cex :
    (cpuContainerStats "c1" false (.v1 c5ThrottledSample) { unixNano := 0 }).map
        (Option.map (fun r => r.cpuCfsThrottledSecondsTotal)) = .ok (some (some 3000000000)) ∧
    ((3000000000 : Nat) / 1000000000 = 3) ∧
    ((some 3000000000 : Option Nat) ≠ some 3) := by
  exact ⟨rfl, by decide, by decide⟩

/-- C5 (amended): the sbserver `generatedCPUContainerMetrics` converts the
raw counter (v1 throttled-time, v2 nr-throttled) from nanoseconds to
seconds by integer division by 1e9, for both encodings; the server
`cpuContainerStats`, however, copies the raw counter without conversion. -/
theorem throttledSeconds_conversion :
    ∀ (ID : String) (isSandbox : Bool) (t : Time) (m1 : V1Metrics)
      (c1 : V1CPUStat) (u : V1CPUUsage) (m2 : V2Metrics) (c2 : V2CPUStat),
      m1.cpu = some c1 → c1.usage = some u → m2.cpu = some c2 →
      ((generatedCPUContainerMetrics ID isSandbox (.v1 m1) t).map
          (Option.map (fun r => r.cpuCfsThrottledSecondsTotal)) =
         .ok (some (c1.throttling.throttledTime / 1000000000)) ∧
       (generatedCPUContainerMetrics ID isSandbox (.v2 m2) t).map
          (Option.map (fun r => r.cpuCfsThrottledSecondsTotal)) =
         .ok (some (c2.nrThrottled / 1000000000)) ∧
       (cpuContainerStats ID isSandbox (.v1 m1) t).map
          (Option.map (fun r => r.cpuCfsThrottledSecondsTotal)) =
         .ok (some (some c1.throttling.throttledTime)) ∧
       (cpuContainerStats ID isSandbox (.v2 m2) t).map
          (Option.map (fun r => r.cpuCfsThrottledSecondsTotal)) =
         .ok (some (some c2.nrThrottled))) := by
  intro ID isSandbox t m1 c1 u m2 c2 h1 hu h2
  refine ⟨?_, ?_, ?_, ?_⟩
  · simp [generatedCPUContainerMetrics, h1, hu, Except.map]
  · simp [generatedCPUContainerMetrics, h2, Except.map]
  · simp [cpuContainerStats, h1, hu, Except.map]
  · simp [cpuContainerStats, h2, Except.map]

/-- C5 witness: the conversion theorem evaluated on the concrete
throttled sample (3e9 ns becomes 3 s in the sbserver variant). -/
theorem throttledSeconds_conversion_witness :
    (generatedCPUContainerMetrics "c1" false (.v1 c5ThrottledSample) { unixNano := 0 }).map
        (Option.map (fun r => r.cpuCfsThrottledSecondsTotal)) =
      .ok (some (3000000000 / 1000000000)) := by
  have h := throttledSeconds_conversion "c1" false { unixNano := 0 } c5ThrottledSample
    { usage := some {}, throttling := { throttledTime := 3000000000 } } {}
    { cpu := some {} } {} rfl rfl rfl
  exact h.1

/-- C7: for payloads that decode to one of the two supported variants,
each extractor (CPU, memory, process) succeeds, returning an absent
result (ok none) when the relevant sub-structure is missing; an error is
returned exactly when the decoded payload is neither supported variant. -/
theorem extractors_absent_not_error :
    ∀ (ID : String) (isSandbox : Bool) (t : Time) (m1 : V1Metrics) (m2 : V2Metrics),
      ((cpuContainerStats ID isSandbox (.v1 m1) t).isOk = true ∧
       (cpuContainerStats ID isSandbox (.v2 m2) t).isOk = true ∧
       (memoryContainerStats ID (.v1 m1) t).isOk = true ∧
       (memoryContainerStats ID (.v2 m2) t).isOk = true ∧
       (processContainerStats ID (.v1 m1) t).isOk = true ∧
       (processContainerStats ID (.v2 m2) t).isOk = true) ∧
      (cpuContainerStats ID isSandbox .other t = .error "unexpected metrics type" ∧
       memoryContainerStats ID .other t = .error "unexpected metrics type" ∧
       processContainerStats ID .other t = .error "unexpected metrics type") ∧
      ((m1.cpu = none → cpuContainerStats ID isSandbox (.v1 m1) t = .ok none) ∧
       (∀ c, m1.cpu = some c → c.usage = none →
         cpuContainerStats ID isSandbox (.v1 m1) t = .ok none) ∧
       (m2.cpu = none → cpuContainerStats ID isSandbox (.v2 m2) t = .ok none) ∧
       (m1.memory = none → memoryContainerStats ID (.v1 m1) t = .ok none) ∧
       (∀ mm, m1.memory = some mm → mm.usage = none →
         memoryContainerStats ID (.v1 m1) t = .ok none) ∧
       (m2.memory = none → memoryContainerStats ID (.v2 m2) t = .ok none) ∧
       (m1.pids = none → processContainerStats ID (.v1 m1) t = .ok none) ∧
       (m2.pids = none → processContainerStats ID (.v2 m2) t = .ok none)) := by
  intro ID isSandbox t m1 m2
  refine ⟨⟨?_, ?_, ?_, ?_, ?_, ?_⟩, ⟨rfl, rfl, rfl⟩, ?_, ?_, ?_, ?_, ?_, ?_, ?_, ?_⟩
  · rcases hc : m1.cpu with _ | cpu
    · simp [cpuContainerStats, hc, Except.isOk, Except.toBool]
    · rcases hu : cpu.usage with _ | u
      · simp [cpuContainerStats, hc, hu, Except.isOk, Except.toBool]
      · simp [cpuContainerStats, hc, hu, Except.isOk, Except.toBool]
  · rcases hc : m2.cpu with _ | cpu
    · simp [cpuContainerStats, hc, Except.isOk, Except.toBool]
    · simp [cpuContainerStats, hc, Except.isOk, Except.toBool]
  · rcases hm : m1.memory with _ | mem
    · simp [memoryContainerStats, hm, Except.isOk, Except.toBool]
    · rcases hu : mem.usage with _ | u
      · simp [memoryContainerStats, hm, hu, Except.isOk, Except.toBool]
      · simp [memoryContainerStats, hm, hu, Except.isOk, Except.toBool]
  · rcases hm : m2.memory with _ | mem
    · simp [memoryContainerStats, hm, Except.isOk, Except.toBool]
    · simp [memoryContainerStats, hm, Except.isOk, Except.toBool]
  · rcases hp : m1.pids with _ | pids
    · simp [processContainerStats, hp, Except.isOk, Except.toBool]
    · simp [processContainerStats, hp, Except.isOk, Except.toBool]
  · rcases hp : m2.pids with _ | pids
    · simp [processContainerStats, hp, Except.isOk, Except.toBool]
    · simp [processContainerStats, hp, Except.isOk, Except.toBool]
  · intro h
    simp [cpuContainerStats, h]
  · intro c hc hu
    simp [cpuContainerStats, hc, hu]
  · intro h
    simp [cpuContainerStats, h]
  · intro h
    simp [memoryContainerStats, h]
  · intro mm hm hu
    simp [memoryContainerStats, hm, hu]
  · intro h
    simp [memoryContainerStats, h]
  · intro h
    simp [processContainerStats, h]
  · intro h
    simp [processContainerStats, h]

/-- C7 witness: on empty v1 and v2 payloads every extractor returns an
absent result with no error. -/
theorem extractors_absent_not_error_witness :
    cpuContainerStats "c1" false (.v1 {}) { unixNano := 0 } = .ok none ∧
    memoryContainerStats "c1" (.v2 {}) { unixNano := 0 } = .ok none ∧
    processContainerStats "c1" (.v1 {}) { unixNano := 0 } = .ok none := by
  have h := extractors_absent_not_error "c1" false { unixNano := 0 } {} {}
  exact ⟨h.2.2.1 rfl, h.2.2.2.2.2.2.2.1 rfl, h.2.2.2.2.2.2.2.2.1 rfl⟩

/-- A previously cached sample, distinct from the new one below. -/
def c2OldStats : ContainerStats := { usageCoreNanoSeconds := 1000000000 }

/-- A newly collected sample. -/
def c2NewStats : ContainerStats := { usageCoreNanoSeconds := 3000000000 }

/-- A service whose container store already has a cached entry for "c1". -/
def c2Service : criService :=
  { snapshotStore := fun _ => .error "snapshot not found"
    containerStore := [("c1", some c2OldStats)] }

/-- C2 counterexample: with an existing StatsCache entry for "c1", a
successful `setContainerStats` call leaves the old sample in the cache —
the entry is not overwritten with the newly collected one. -/
theorem setContainerStats_no_overwrite_cex :
    (setContainerStats c2Service "c1" false c2NewStats).map
        (fun s => storeGet s.containerStore "c1") = .ok (some (some c2OldStats)) ∧
    c2OldStats ≠ c2NewStats := by
  exact ⟨rfl, by decide⟩

/-- C2 (amended): `setContainerStats` creates a cache entry on the first
successful sample (record present, cached stats nil) but on subsequent
calls, when a cached entry already exists, it returns success without
modifying either store, so the cached stats remain the previous sample. -/
theorem setContainerStats_cache_behavior :
    ∀ (c : criService) (containerID : String) (old cs : ContainerStats),
      (storeGet c.containerStore containerID = some (some old) →
        setContainerStats c containerID false cs = .ok c) ∧
      (storeGet c.containerStore containerID = some none →
        setContainerStats c containerID false cs =
          .ok { c with containerStore := storeUpdate c.containerStore containerID cs }) ∧
      (storeGet c.sandboxStore containerID = some (some old) →
        setContainerStats c containerID true cs = .ok c) ∧
      (storeGet c.sandboxStore containerID = some none →
        setContainerStats c containerID true cs =
          .ok { c with sandboxStore := storeUpdate c.sandboxStore containerID cs }) := by
  intro c containerID old cs
  refine ⟨?_, ?_, ?_, ?_⟩
  · intro h
    simp [setContainerStats, h]
  · intro h
    simp [setContainerStats, h]
  · intro h
    simp [setContainerStats, h]
  · intro h
    simp [setContainerStats, h]

/-- C2 witness: the cache-behavior theorem applied at the concrete service
with an existing entry: the call succeeds and the service is unchanged. -/
theorem setContainerStats_cache_behavior_witness :
    setContainerStats c2Service "c1" false c2NewStats = .ok c2Service := by
  exact (setContainerStats_cache_behavior c2Service "c1" c2OldStats c2NewStats).1 rfl

/-- C8: when the snapshot-size provider has no record for the container
(lookup returns an error), the filesystem stats are still produced with
usedBytes = 0 and inodesUsed = 0 in both assemblers, every successful
`containerMetrics` result carries the assembled writable-layer record,
and the filesystem-resolution step itself raises no error (the call with
no raw sample succeeds outright). -/
theorem fsStats_zero_on_snapshot_miss :
    ∀ (c : criService) (meta : Metadata) (stats : Option TypesMetric),
      ((c.snapshotStore meta.ID).isOk = false →
        (generatedUnstructuredFileSystemStats c meta).usedBytes = 0 ∧
        (generatedUnstructuredFileSystemStats c meta).inodesUsed = 0 ∧
        (resolveWritableLayer c meta).usedBytes = some 0 ∧
        (resolveWritableLayer c meta).inodesUsed = some 0) ∧
      (∀ cs, containerMetrics c meta stats = .ok cs →
        cs.writableLayer = some (resolveWritableLayer c meta)) ∧
      (containerMetrics c meta none).isOk = true := by
  intro c meta stats
  refine ⟨?_, ?_, ?_⟩
  · intro h
    rcases hsn : c.snapshotStore meta.ID with e | sn
    · simp [generatedUnstructuredFileSystemStats, resolveWritableLayer, hsn]
    · rw [hsn] at h
      simp [Except.isOk, Except.toBool] at h
  · intro cs h
    rcases stats with _ | st
    · simp only [containerMetrics] at h
      cases h
      rfl
    · simp only [containerMetrics] at h
      rcases hd : st.data with ed | p
      · simp only [hd] at h
        exact Except.noConfusion h
      · simp only [hd] at h
        rcases hcpu : cpuContainerStats meta.ID false p st.timestamp with ec | cpuStats
        · simp only [hcpu] at h
          exact Except.noConfusion h
        · simp only [hcpu] at h
          rcases hmem : memoryContainerStats meta.ID p st.timestamp with em | memStats
          · simp only [hmem] at h
            exact Except.noConfusion h
          · simp only [hmem] at h
            rcases hpr : processContainerStats meta.ID p st.timestamp with ep | prStats
            · simp only [hpr] at h
              exact Except.noConfusion h
            · simp only [hpr, prometheusMetrics] at h
              injection h with h2
              subst h2
              rfl
  · simp [containerMetrics, Except.isOk, Except.toBool]

/-- A service whose snapshot provider has no entries at all. -/
def c8Service : criService :=
  { snapshotStore := fun _ => .error "does not exist" }

/-- Metadata for the spec's scenario container "c2". -/
def c8Meta : Metadata := { ID := "c2" }

/-- C8 witness: the snapshot-miss theorem applied to container "c2" with
an empty snapshot provider. -/
theorem fsStats_zero_on_snapshot_miss_witness :
    (generatedUnstructuredFileSystemStats c8Service c8Meta).usedBytes = 0 ∧
    (generatedUnstructuredFileSystemStats c8Service c8Meta).inodesUsed = 0 ∧
    (resolveWritableLayer c8Service c8Meta).usedBytes = some 0 ∧
    (resolveWritableLayer c8Service c8Meta).inodesUsed = some 0 ∧
    (containerMetrics c8Service c8Meta none).isOk = true := by
  have h := fsStats_zero_on_snapshot_miss c8Service c8Meta none
  have h1 := h.1 rfl
  exact ⟨h1.1, h1.2.1, h1.2.2.1, h1.2.2.2, h.2.2⟩

/-- Success of both per-sandbox collaborators on a sandbox. -/
def sandboxSucceeds {α β : Type} (f : Sandbox → Except String α)
    (g : Sandbox → α → Except String β) (sb : Sandbox) : Prop :=
  ∃ m, f sb = .ok m ∧ ∃ r, g sb m = .ok r

/-- When every listed sandbox succeeds, the batch returns one entry per
sandbox. -/
theorem listPodSandboxMetrics_ok_of_all {α β : Type} (f : Sandbox → Except String α)
    (g : Sandbox → α → Except String β) :
    ∀ (sandboxes : List Sandbox),
      (∀ sb ∈ sandboxes, sandboxSucceeds f g sb) →
      ∃ l, listPodSandboxMetrics f g sandboxes = .ok l ∧ l.length = sandboxes.length := by
  intro sandboxes
  induction sandboxes with
  | nil =>
    intro _
    exact ⟨[], rfl, rfl⟩
  | cons a rest ih =>
    intro h
    obtain ⟨m, hm, r, hr⟩ := h a (List.mem_cons_self a rest)
    obtain ⟨l, hl, hlen⟩ := ih (fun sb hsb => h sb (List.mem_cons_of_mem a hsb))
    refine ⟨r :: l, ?_, by simp [hlen]⟩
    simp [listPodSandboxMetrics, hm, hr, hl]

/-- A prefix of successful sandboxes passes any error of the remaining
batch through unchanged. -/
theorem listPodSandboxMetrics_error_append {α β : Type} (f : Sandbox → Except String α)
    (g : Sandbox → α → Except String β) :
    ∀ (pre rest : List Sandbox) (e : String),
      (∀ sb ∈ pre, sandboxSucceeds f g sb) →
      listPodSandboxMetrics f g rest = .error e →
      listPodSandboxMetrics f g (pre ++ rest) = .error e := by
  intro pre
  induction pre with
  | nil =>
    intro rest e _ h
    simpa using h
  | cons a pre' ih =>
    intro rest e hall h
    obtain ⟨m, hm, r, hr⟩ := hall a (List.mem_cons_self a pre')
    have htail := ih rest e (fun sb hsb => hall sb (List.mem_cons_of_mem a hsb)) h
    simp [listPodSandboxMetrics, hm, hr, htail]

/-- C9: the batch listing is fail-fast.  When every listed sandbox
succeeds, the result is a list with exactly one metrics entry per
sandbox; when a sandbox after a successful prefix fails (in either the
metrics fetch or the decode step), the whole batch returns a single
wrapped error naming that sandbox's ID and no partial results. -/
theorem listPodSandboxMetrics_failfast {α β : Type} (f : Sandbox → Except String α)
    (g : Sandbox → α → Except String β) :
    ∀ (sandboxes pre post : List Sandbox) (s : Sandbox) (e : String),
      ((∀ sb ∈ sandboxes, sandboxSucceeds f g sb) →
        ∃ l, listPodSandboxMetrics f g sandboxes = .ok l ∧
          l.length = sandboxes.length) ∧
      ((∀ sb ∈ pre, sandboxSucceeds f g sb) → f s = .error e →
        listPodSandboxMetrics f g (pre ++ s :: post) =
          .error ("failed to obtain metrics for sandbox \"" ++ s.id ++ "\": " ++ e)) ∧
      ((∀ sb ∈ pre, sandboxSucceeds f g sb) →
        ∀ m, f s = .ok m → g s m = .error e →
        listPodSandboxMetrics f g (pre ++ s :: post) =
          .error ("failed to decode sandbox container metrics for sandbox \"" ++ s.id ++ "\": " ++ e)) := by
  intro sandboxes pre post s e
  refine ⟨listPodSandboxMetrics_ok_of_all f g sandboxes, ?_, ?_⟩
  · intro hall hf
    refine listPodSandboxMetrics_error_append f g pre (s :: post) _ hall ?_
    simp [listPodSandboxMetrics, hf]
  · intro hall m hf hg
    refine listPodSandboxMetrics_error_append f g pre (s :: post) _ hall ?_
    simp [listPodSandboxMetrics, hf, hg]

/-- Concrete per-sandbox metrics fetch: succeeds only for sandbox "s1". -/
def c9Fetch : Sandbox → Except String Nat :=
  fun sb => if sb.id = "s1" then .ok 0 else .error "metrics unavailable"

/-- Concrete per-sandbox decode step: always succeeds. -/
def c9Decode : Sandbox → Nat → Except String Nat :=
  fun _ m => .ok m

/-- C9 witness: after the successful sandbox "s1", the failing sandbox
"c2" aborts the batch with a wrapped error naming "c2". -/
theorem listPodSandboxMetrics_failfast_witness :
    listPodSandboxMetrics c9Fetch c9Decode [{ id := "s1" }, { id := "c2" }] =
      .error "failed to obtain metrics for sandbox \"c2\": metrics unavailable" := by
  have h := (listPodSandboxMetrics_failfast c9Fetch c9Decode []
    [{ id := "s1" }] [] { id := "c2" } "metrics unavailable").2.1
  have hpre : ∀ sb ∈ [({ id := "s1" } : Sandbox)], sandboxSucceeds c9Fetch c9Decode sb := by
    intro sb hsb
    simp only [List.mem_singleton] at hsb
    subst hsb
    exact ⟨0, rfl, 0, rfl⟩
  exact h hpre rfl
